import Mathlib

/-
Shallow embedding of the book-lending service in src/index.js.

The persistent store (SQLite) is modelled as explicit state: the
borrow_requests table as a list of rows in storage order together with the
next AUTOINCREMENT id, and the users table likewise.  Dates are TEXT columns
compared by SQLite as strings (memcmp), modelled by the lexicographic order
on Lean strings.  bcrypt is an external collaborator and enters as a
function parameter (a hash function for hashSync, a comparison predicate for
compareSync).  HTTP responses are an inductive type; the constructor
`exception` stands for an error thrown inside a handler outside any
try/catch, which escapes the handler instead of producing a response.
The schema's CHECK constraint on borrow_requests.status and the UNIQUE and
NOT NULL constraints on users.email are part of the store and are modelled
where the handlers can hit them; foreign keys are not enforced by the code
(no PRAGMA foreign_keys) and are not modelled.
-/

namespace LendingService

/-- A row of the users table (src/index.js lines 38-54): id, email (UNIQUE
NOT NULL), password (the stored bcrypt hash), is_admin flag. -/
structure User where
  id : Nat
  email : String
  password : String
  is_admin : Bool
deriving Repr, DecidableEq

/-- A row of the borrow_requests table (src/index.js lines 75-95): id,
book_id, user_id, start_date and end_date as TEXT, status constrained by
CHECK to Pending / Approved / Denied. -/
structure BorrowRequest where
  id : Nat
  book_id : Nat
  user_id : Nat
  start_date : String
  end_date : String
  status : String
deriving Repr, DecidableEq

/-- The outcome a handler produces.  `ok` is a 200 with a plain body,
`jsonRequests` the 200 JSON array of GET /borrow-requests, `unauthorized`
a 401, `forbidden` a 403, `badRequest` a 400, and `exception` an error
thrown outside any try/catch, escaping the handler with no response sent. -/
inductive Response where
  | ok (body : String)
  | jsonRequests (rows : List BorrowRequest)
  | unauthorized (body : String)
  | forbidden (body : String)
  | badRequest (body : String)
  | exception
deriving Repr, DecidableEq

/-- The borrow_requests table: rows in storage order, plus the next
AUTOINCREMENT id (SQLite starts at 1). -/
structure Store where
  requests : List BorrowRequest
  nextId : Nat
deriving Repr, DecidableEq

/-- The freshly created database: no rows, next id 1. -/
def emptyStore : Store := ⟨[], 1⟩

/-- The users table: rows in storage order plus the next AUTOINCREMENT id. -/
structure UserStore where
  users : List User
  nextId : Nat
deriving Repr, DecidableEq

/-- Lexicographic comparison of character sequences by codepoint: the order
SQLite's memcmp induces on TEXT values stored as UTF-8. -/
def charListLe : List Char → List Char → Bool
  | [], _ => true
  | _ :: _, [] => false
  | a :: as, b :: bs =>
    if a < b then true else if b < a then false else charListLe as bs

/-- Strict lexicographic comparison of character sequences by codepoint. -/
def charListLt : List Char → List Char → Bool
  | _, [] => false
  | [], _ :: _ => true
  | a :: as, b :: bs =>
    if a < b then true else if b < a then false else charListLt as bs

/-- SQLite TEXT comparison: byte order on UTF-8, which is the lexicographic
order on the strings' characters. -/
def strLe (a b : String) : Bool := charListLe a.data b.data

/-- Strict SQLite TEXT comparison. -/
def strLt (a b : String) : Bool := charListLt a.data b.data

/-- SQLite `x BETWEEN lo AND hi` on TEXT values: lo <= x AND x <= hi. -/
def sqlBetween (x lo hi : String) : Bool := strLe lo x && strLe x hi

/-- The WHERE clause of the conflict query (src/index.js line 202): the row
is for the same book, has status Approved, and the proposed start or end
date falls within the row's [start_date, end_date] range. -/
def conflictsWith (book_id : Nat) (start_date end_date : String)
    (r : BorrowRequest) : Bool :=
  r.book_id == book_id && r.status == "Approved" &&
    (sqlBetween start_date r.start_date r.end_date ||
     sqlBetween end_date r.start_date r.end_date)

/-- db.get of the conflict query (src/index.js lines 201-204): the first
row of borrow_requests satisfying the WHERE clause, if any. -/
def findConflict (rows : List BorrowRequest) (book_id : Nat)
    (start_date end_date : String) : Option BorrowRequest :=
  rows.find? (conflictsWith book_id start_date end_date)

/-- The POST /borrow-requests handler after authentication (src/index.js
lines 197-221), with the requester's user id already resolved: if the
conflict query finds a row, respond 400 and leave the store unchanged;
otherwise insert a new row with status "Pending" and respond 200. -/
def submitRequest (st : Store) (book_id requester_id : Nat)
    (start_date end_date : String) : Response × Store :=
  match findConflict st.requests book_id start_date end_date with
  | some _ => (.badRequest "Book already borrowed during the selected period", st)
  | none =>
      (.ok "Request submitted",
        ⟨st.requests ++
          [⟨st.nextId, book_id, requester_id, start_date, end_date, "Pending"⟩],
         st.nextId + 1⟩)

/-- The POST /borrow-requests route with the authenticated caller attached:
the inserted row's user_id is req.user.id (src/index.js line 215). -/
def postBorrowRequest (caller : User) (st : Store) (book_id : Nat)
    (start_date end_date : String) : Response × Store :=
  submitRequest st book_id caller.id start_date end_date

/-- The three values admitted by the CHECK constraint on
borrow_requests.status (src/index.js line 83). -/
def validStatuses : List String := ["Pending", "Approved", "Denied"]

/-- The effect of `UPDATE borrow_requests SET status = ? WHERE id = ?` on
one row: overwrite status when the id matches, otherwise leave the row. -/
def setStatus (rid : Nat) (newStatus : String) (r : BorrowRequest) :
    BorrowRequest :=
  if r.id == rid then { r with status := newStatus } else r

/-- The UPDATE statement of src/index.js lines 180-183 against the store
with its CHECK constraint: if some row matches the id and the new status is
outside the enumerated set, the statement aborts (the catch answers 400 and
nothing changes); otherwise every matching row's status is overwritten and
the handler answers 200 "Request updated" — also when no row matched. -/
def updateRequestStatus (st : Store) (rid : Nat) (newStatus : String) :
    Response × Store :=
  if st.requests.any (fun r => r.id == rid) && !(validStatuses.contains newStatus)
  then (.badRequest "Error updating request", st)
  else (.ok "Request updated",
        ⟨st.requests.map (setStatus rid newStatus), st.nextId⟩)

/-- The PUT /borrow-requests/:id route (src/index.js lines 171-188): 403
for a non-administrator before anything else, then the UPDATE. -/
def putBorrowRequest (caller : User) (st : Store) (rid : Nat)
    (newStatus : String) : Response × Store :=
  if !caller.is_admin then (.forbidden "Access denied", st)
  else updateRequestStatus st rid newStatus

/-- The GET /borrow-requests route (src/index.js lines 161-168): 403 for a
non-administrator, otherwise all rows of borrow_requests, unfiltered, in
storage order. -/
def listRequests (caller : User) (st : Store) : Response × Store :=
  if !caller.is_admin then (.forbidden "Access denied", st)
  else (.jsonRequests st.requests, st)

/-- The POST /users route (src/index.js lines 141-158).  403 for a
non-administrator.  A body with no password field reaches
bcrypt.hashSync(undefined, 10), which throws outside the try/catch: the
error escapes the handler (`exception`).  The INSERT inside the try/catch
fails on a missing email (NOT NULL) or a duplicate email (UNIQUE), caught
as 400; otherwise the user row is appended and the handler answers 200. -/
def createUser (hash : String → String) (caller : User) (ust : UserStore)
    (email : Option String) (password : Option String) (is_admin : Bool) :
    Response × UserStore :=
  if !caller.is_admin then (.forbidden "Access denied", ust)
  else
    match password with
    | none => (.exception, ust)
    | some p =>
      match email with
      | none => (.badRequest "Error creating user", ust)
      | some em =>
        if ust.users.any (fun u => u.email == em) then
          (.badRequest "Error creating user", ust)
        else
          (.ok "User created successfully",
           ⟨ust.users ++ [⟨ust.nextId, em, hash p, is_admin⟩], ust.nextId + 1⟩)

/-- The authentication middleware (src/index.js lines 120-138) from the
decoded email:password pair on: look the email up in users (db.get returns
the first matching row), accept exactly when a row was found and
bcrypt.compareSync(password, row.password) holds, attaching that row; both
an unknown email and a failing comparison answer the same
401 "Invalid credentials".  `compare` stands for bcrypt.compareSync. -/
def authenticateUser (compare : String → String → Bool) (users : List User)
    (email password : String) : Except Response User :=
  match users.find? (fun u => u.email == email) with
  | some u =>
      if compare password u.password then .ok u
      else .error (.unauthorized "Invalid credentials")
  | none => .error (.unauthorized "Invalid credentials")

/-- One client operation against the borrow_requests table: a submitted
borrow request (POST /borrow-requests) or an administrator status update
(PUT /borrow-requests/:id). -/
inductive Op where
  | submit (book_id requester_id : Nat) (start_date end_date : String)
  | update (rid : Nat) (newStatus : String)
deriving Repr, DecidableEq

/-- The store after one operation (responses discarded). -/
def applyOp (st : Store) (op : Op) : Store :=
  match op with
  | .submit b u s e => (submitRequest st b u s e).2
  | .update rid ns => (updateRequestStatus st rid ns).2

/-- The store reached from the empty database by a sequence of operations. -/
def runOps (ops : List Op) : Store := ops.foldl applyOp emptyStore

/-- Two date ranges overlap when they share at least one calendar day
(glossary): each starts no later than the other ends. -/
def overlapB (r1 r2 : BorrowRequest) : Bool :=
  strLe r1.start_date r2.end_date && strLe r2.start_date r1.end_date

/-- The no-double-booking invariant of the spec: no book has two distinct
Approved rows whose date ranges overlap. -/
def noDoubleBookingB (st : Store) : Bool :=
  st.requests.all (fun r1 => st.requests.all (fun r2 =>
    !(r1.id != r2.id && r1.book_id == r2.book_id &&
      r1.status == "Approved" && r2.status == "Approved" && overlapB r1 r2)))

/-- The Approved example row of spec section 8: book 1 reserved for
[2024-01-10, 2024-01-20]. -/
def approvedRow : BorrowRequest :=
  ⟨1, 1, 2, "2024-01-10", "2024-01-20", "Approved"⟩

/-- A store holding just the Approved example row. -/
def stExample : Store := ⟨[approvedRow], 2⟩

/-- A stand-in for bcrypt.hashSync for concrete evaluation: hashing appends
a marker. -/
def hashStub (p : String) : String := p ++ "#hashed"

/-- A stand-in for bcrypt.compareSync matching hashStub: rehash and
compare. -/
def compareStub (p h : String) : Bool := hashStub p == h

/-- A stored administrator account. -/
def adminUser : User := ⟨1, "admin@library.com", "secret#hashed", true⟩

/-- A stored ordinary (non-administrator) account. -/
def ordinaryUser : User := ⟨3, "user@library.com", "pw#hashed", false⟩

/-- A store holding one Pending request with id 1. -/
def stC5 : Store := ⟨[⟨1, 1, 3, "2024-01-10", "2024-01-20", "Pending"⟩], 2⟩

/-- Two users ask for overlapping ranges of book 1 while nothing is
Approved yet, then an administrator approves both: the approval path
re-checks nothing. -/
def doubleBookOps : List Op :=
  [.submit 1 2 "2024-01-10" "2024-01-20",
   .submit 1 3 "2024-01-12" "2024-01-18",
   .update 1 "Approved",
   .update 2 "Approved"]

/-- If one character sequence is strictly below another, the converse
non-strict comparison fails: the comparison is a total order. -/
theorem charListLt_not_le :
    ∀ a b : List Char, charListLt a b = true → charListLe b a = false
  | [], [], h => by simp [charListLt] at h
  | _ :: _, [], h => by simp [charListLt] at h
  | [], _ :: _, _ => by simp [charListLe]
  | a :: as, b :: bs, h => by
    by_cases h1 : a < b
    · have h2 : ¬ b < a := lt_asymm h1
      simp [charListLe, h1, h2]
    · by_cases h2 : b < a
      · simp [charListLt, h1, h2] at h
      · simp only [charListLt, if_neg h1, if_neg h2] at h
        simp only [charListLe, if_neg h2, if_neg h1]
        exact charListLt_not_le as bs h

/-- A strictly smaller string is not greater-or-equal the other way. -/
theorem strLt_not_le (a b : String) (h : strLt a b = true) :
    strLe b a = false :=
  charListLt_not_le a.data b.data h

/-- C1: if some Approved row for the same book has the proposed start or end
date inside its [start, end] range (dates compared as strings), submitRequest
answers the 400 conflict message and leaves the borrow_requests table
unchanged. -/
theorem C1_conflict_rejected (st : Store) (b u : Nat) (s e : String)
    (h : ∃ r ∈ st.requests, r.book_id = b ∧ r.status = "Approved" ∧
         (sqlBetween s r.start_date r.end_date = true ∨
          sqlBetween e r.start_date r.end_date = true)) :
    submitRequest st b u s e =
      (Response.badRequest "Book already borrowed during the selected period", st) := by
  obtain ⟨r, hr, hb, hst, hbet⟩ := h
  have hsome : (findConflict st.requests b s e).isSome := by
    rw [findConflict, List.find?_isSome]
    refine ⟨r, hr, ?_⟩
    rcases hbet with h1 | h1 <;> simp [conflictsWith, hb, hst, h1]
  obtain ⟨c, hc⟩ := Option.isSome_iff_exists.mp hsome
  rw [findConflict] at hc
  simp [submitRequest, findConflict, hc]

/-- C1 witness: the spec's example — with book 1 Approved for
[2024-01-10, 2024-01-20], a request for [2024-01-15, 2024-01-25] is
rejected with the conflict message and the store is unchanged. -/
theorem C1_conflict_rejected_witness :
    submitRequest stExample 1 3 "2024-01-15" "2024-01-25" =
      (Response.badRequest "Book already borrowed during the selected period", stExample) :=
  C1_conflict_rejected stExample 1 3 "2024-01-15" "2024-01-25"
    ⟨approvedRow, by decide, by decide, by decide, Or.inl (by decide)⟩

/-- C2: when every Approved row for the book is strictly contained in the
proposed range (and at least one such row exists), neither proposed endpoint
falls inside any Approved range, so the partial-overlap conflict check does
not fire and the request is accepted and inserted as Pending: the
implemented test is not a full interval-intersection test. -/
theorem C2_containment_accepted (st : Store) (b u : Nat) (s e : String)
    (_hex : ∃ r ∈ st.requests, r.book_id = b ∧ r.status = "Approved" ∧
           strLt s r.start_date = true ∧ strLt r.end_date e = true)
    (hall : ∀ r ∈ st.requests, r.book_id = b → r.status = "Approved" →
            strLt s r.start_date = true ∧ strLt r.end_date e = true) :
    submitRequest st b u s e =
      (Response.ok "Request submitted",
       ⟨st.requests ++ [⟨st.nextId, b, u, s, e, "Pending"⟩], st.nextId + 1⟩) := by
  have hnone : findConflict st.requests b s e = none := by
    rw [findConflict, List.find?_eq_none]
    intro r hr
    by_cases hb : r.book_id = b
    · by_cases hst : r.status = "Approved"
      · obtain ⟨h1, h2⟩ := hall r hr hb hst
        have hA : strLe r.start_date s = false := strLt_not_le _ _ h1
        have hB : strLe e r.end_date = false := strLt_not_le _ _ h2
        simp [conflictsWith, sqlBetween, hA, hB]
      · simp [conflictsWith, hst]
    · simp [conflictsWith, hb]
  simp [submitRequest, hnone]

/-- C2 witness: with book 1 Approved for [2024-01-10, 2024-01-20], a request
for [2024-01-05, 2024-01-25] — strictly enclosing it, neither endpoint
inside — is accepted and appended as Pending. -/
theorem C2_containment_accepted_witness :
    submitRequest stExample 1 3 "2024-01-05" "2024-01-25" =
      (Response.ok "Request submitted",
       ⟨[approvedRow, ⟨2, 1, 3, "2024-01-05", "2024-01-25", "Pending"⟩], 3⟩) :=
  C2_containment_accepted stExample 1 3 "2024-01-05" "2024-01-25"
    ⟨approvedRow, by decide, by decide, by decide, by decide, by decide⟩
    (by decide)

/-- C10: submitRequest validates nothing about the date strings: whenever
the conflict query finds no row, any pair of strings — also one with the end
before the start, or strings that are no calendar dates — is inserted
verbatim into a new Pending row. -/
theorem C10_no_date_validation (st : Store) (b u : Nat) (s e : String)
    (hc : findConflict st.requests b s e = none) :
    submitRequest st b u s e =
      (Response.ok "Request submitted",
       ⟨st.requests ++ [⟨st.nextId, b, u, s, e, "Pending"⟩], st.nextId + 1⟩) := by
  simp [submitRequest, hc]

/-- C10 witness: on the empty store, the non-date pair
("zzz not a date", "aaa") — end before start — is inserted verbatim. -/
theorem C10_no_date_validation_witness :
    submitRequest emptyStore 1 2 "zzz not a date" "aaa" =
      (Response.ok "Request submitted",
       ⟨[⟨1, 1, 2, "zzz not a date", "aaa", "Pending"⟩], 2⟩) :=
  C10_no_date_validation emptyStore 1 2 "zzz not a date" "aaa" rfl

/-- C3 counterexample: the state reached from the empty store by two
submits for overlapping ranges of book 1 followed by two status updates to
Approved violates the no-double-booking invariant. -/
theorem C3_counterexample :
    noDoubleBookingB (runOps doubleBookOps) = false := by decide

/-- C3 as amended: the no-double-booking property is not an invariant of
the operations: some sequence of submitRequest and updateRequestStatus
operations starting from the empty store reaches a state where a book has
two Approved rows with overlapping ranges, because approval re-validates
nothing. -/
theorem C3_amended_reachable_violation :
    ∃ ops : List Op, noDoubleBookingB (runOps ops) = false :=
  ⟨doubleBookOps, by decide⟩

/-- C4: a submitRequest that passes the conflict check appends exactly one
new row, with status Pending and user_id the authenticated requester's id,
and that row is returned by a subsequent listRequests (all rows, unfiltered,
in storage order). -/
theorem C4_insert_pending (caller : User) (st : Store) (b : Nat)
    (s e : String) (admin : User)
    (hc : findConflict st.requests b s e = none)
    (ha : admin.is_admin = true) :
    postBorrowRequest caller st b s e =
      (Response.ok "Request submitted",
       ⟨st.requests ++ [⟨st.nextId, b, caller.id, s, e, "Pending"⟩],
        st.nextId + 1⟩) ∧
    (listRequests admin (postBorrowRequest caller st b s e).2).1 =
      Response.jsonRequests
        (st.requests ++ [⟨st.nextId, b, caller.id, s, e, "Pending"⟩]) ∧
    (⟨st.nextId, b, caller.id, s, e, "Pending"⟩ : BorrowRequest) ∈
      (postBorrowRequest caller st b s e).2.requests := by
  refine ⟨?_, ?_, ?_⟩ <;>
    simp [postBorrowRequest, submitRequest, listRequests, hc, ha]

/-- C4 witness: the ordinary user requests book 1 for
[2024-02-01, 2024-02-05], clear of the Approved January range; one Pending
row carrying the requester's id appears and listRequests returns it. -/
theorem C4_insert_pending_witness :
    postBorrowRequest ordinaryUser stExample 1 "2024-02-01" "2024-02-05" =
      (Response.ok "Request submitted",
       ⟨stExample.requests ++
          [⟨2, 1, 3, "2024-02-01", "2024-02-05", "Pending"⟩], 3⟩) ∧
    (listRequests adminUser
        (postBorrowRequest ordinaryUser stExample 1 "2024-02-01" "2024-02-05").2).1 =
      Response.jsonRequests
        (stExample.requests ++
          [⟨2, 1, 3, "2024-02-01", "2024-02-05", "Pending"⟩]) ∧
    (⟨2, 1, 3, "2024-02-01", "2024-02-05", "Pending"⟩ : BorrowRequest) ∈
      (postBorrowRequest ordinaryUser stExample 1 "2024-02-01" "2024-02-05").2.requests :=
  C4_insert_pending ordinaryUser stExample 1 "2024-02-01" "2024-02-05"
    adminUser rfl rfl

/-- C5 counterexample: with one Pending row of id 1, an administrator's
update to the status string "Rejected" — outside the CHECK constraint's
enumerated set — answers 400 and overwrites nothing, so a subsequent read
does not return the new status, against the claim's quantification over
every status string. -/
theorem C5_counterexample :
    putBorrowRequest adminUser stC5 1 "Rejected" =
      (Response.badRequest "Error updating request", stC5) ∧
    ((putBorrowRequest adminUser stC5 1 "Rejected").2.requests.map
        (fun r => r.status)) ≠ ["Rejected"] := by
  constructor
  · decide
  · decide

/-- C5 as amended: for a new status inside the CHECK constraint's
enumerated set (Pending, Approved, Denied), an administrator's update
answers 200 "Request updated", overwrites exactly the status field of the
rows whose id matches, leaves every other row and every other field
unchanged, and a subsequent read of a matched row returns the new
status. -/
theorem C5_amended_status_update (caller : User) (st : Store) (rid : Nat)
    (ns : String) (ha : caller.is_admin = true) (hs : ns ∈ validStatuses) :
    putBorrowRequest caller st rid ns =
      (Response.ok "Request updated",
       ⟨st.requests.map (setStatus rid ns), st.nextId⟩) ∧
    (∀ r ∈ st.requests, r.id ≠ rid → setStatus rid ns r = r) ∧
    (∀ r ∈ st.requests, r.id = rid →
       setStatus rid ns r = { r with status := ns }) ∧
    (∀ r ∈ (putBorrowRequest caller st rid ns).2.requests, r.id = rid →
       r.status = ns) := by
  refine ⟨?_, ?_, ?_, ?_⟩
  · simp [putBorrowRequest, ha, updateRequestStatus, hs]
  · intro r _ hne
    simp [setStatus, hne]
  · intro r _ he
    simp [setStatus, he]
  · have h2 : (putBorrowRequest caller st rid ns).2 =
        ⟨st.requests.map (setStatus rid ns), st.nextId⟩ := by
      simp [putBorrowRequest, ha, updateRequestStatus, hs]
    intro r hr hid
    rw [h2] at hr
    obtain ⟨a, hmem, rfl⟩ := List.mem_map.mp hr
    by_cases hae : a.id = rid
    · simp [setStatus, hae]
    · have hfix : setStatus rid ns a = a := by simp [setStatus, hae]
      rw [hfix] at hid
      exact absurd hid hae

/-- C5 witness for the amended claim: approving the Pending row of id 1
answers 200 and the row reads back with status Approved, every other field
kept. -/
theorem C5_amended_status_update_witness :
    putBorrowRequest adminUser stC5 1 "Approved" =
      (Response.ok "Request updated",
       ⟨[⟨1, 1, 3, "2024-01-10", "2024-01-20", "Approved"⟩], 2⟩) :=
  (C5_amended_status_update adminUser stC5 1 "Approved" rfl (by decide)).1

/-- C6: a non-administrator caller gets the 403 "Access denied" from each
of POST /users, GET /borrow-requests and PUT /borrow-requests/:id, whatever
the request body, the stores are untouched, and the 403 differs from every
401 authentication failure. -/
theorem C6_nonadmin_forbidden (caller : User) (hash : String → String)
    (ust : UserStore) (st : Store) (email password : Option String)
    (ia : Bool) (rid : Nat) (ns : String)
    (h : caller.is_admin = false) :
    createUser hash caller ust email password ia =
      (Response.forbidden "Access denied", ust) ∧
    listRequests caller st = (Response.forbidden "Access denied", st) ∧
    putBorrowRequest caller st rid ns =
      (Response.forbidden "Access denied", st) ∧
    (∀ msg : String,
       Response.forbidden "Access denied" ≠ Response.unauthorized msg) := by
  refine ⟨?_, ?_, ?_, ?_⟩ <;>
    simp [createUser, listRequests, putBorrowRequest, h]

/-- C6 witness: the ordinary user is turned away with 403 by all three
administrator routes, and that 403 differs from the 401 of the gate. -/
theorem C6_nonadmin_forbidden_witness :
    createUser hashStub ordinaryUser ⟨[adminUser], 2⟩
        (some "new@library.com") (some "pw") false =
      (Response.forbidden "Access denied", ⟨[adminUser], 2⟩) ∧
    listRequests ordinaryUser stExample =
      (Response.forbidden "Access denied", stExample) ∧
    putBorrowRequest ordinaryUser stExample 1 "Approved" =
      (Response.forbidden "Access denied", stExample) ∧
    Response.forbidden "Access denied" ≠
      Response.unauthorized "Invalid credentials" := by
  obtain ⟨h1, h2, h3, h4⟩ :=
    C6_nonadmin_forbidden ordinaryUser hashStub ⟨[adminUser], 2⟩ stExample
      (some "new@library.com") (some "pw") false 1 "Approved" rfl
  exact ⟨h1, h2, h3, h4 "Invalid credentials"⟩

/-- C7: the Authentication Gate accepts exactly when the email resolves to
a stored user row and the presented secret matches that row's stored hash,
attaching that exact row; an unknown email and a failing comparison are
rejected with the one identical 401 "Invalid credentials". -/
theorem C7_auth_gate (compare : String → String → Bool) (users : List User)
    (email password : String) :
    (∀ u, users.find? (fun v => v.email == email) = some u →
       (compare password u.password = true →
          authenticateUser compare users email password = Except.ok u) ∧
       (compare password u.password = false →
          authenticateUser compare users email password =
            Except.error (Response.unauthorized "Invalid credentials"))) ∧
    (users.find? (fun v => v.email == email) = none →
       authenticateUser compare users email password =
         Except.error (Response.unauthorized "Invalid credentials")) := by
  constructor
  · intro u hu
    constructor <;> intro hcmp <;> simp [authenticateUser, hu, hcmp]
  · intro hn
    simp [authenticateUser, hn]

/-- C7 witness: against a store holding the administrator row, the right
secret authenticates as exactly that row; a wrong secret and an unknown
email each get the same 401. -/
theorem C7_auth_gate_witness :
    authenticateUser compareStub [adminUser] "admin@library.com" "secret" =
      Except.ok adminUser ∧
    authenticateUser compareStub [adminUser] "admin@library.com" "wrong" =
      Except.error (Response.unauthorized "Invalid credentials") ∧
    authenticateUser compareStub [adminUser] "nobody@library.com" "secret" =
      Except.error (Response.unauthorized "Invalid credentials") :=
  ⟨((C7_auth_gate compareStub [adminUser] "admin@library.com" "secret").1
      adminUser (by decide)).1 (by decide),
   ((C7_auth_gate compareStub [adminUser] "admin@library.com" "wrong").1
      adminUser (by decide)).2 (by decide),
   (C7_auth_gate compareStub [adminUser] "nobody@library.com" "secret").2
     (by decide)⟩

/-- C8: the code at the failing input — an administrator posts a body with
no password field.  bcrypt.hashSync(undefined, 10) is reached outside the
try/catch and throws, so the error escapes the handler instead of any of
the documented 200/401/403/400 responses, and the users table is
unchanged. -/
theorem C8_missing_password_throws :
    createUser hashStub adminUser ⟨[adminUser], 2⟩
        (some "new@library.com") none false =
      (Response.exception, ⟨[adminUser], 2⟩) := rfl

/-- C9: an administrator's status update naming an id that matches no row
still answers 200 "Request updated" — the UPDATE touches zero rows and the
handler does not look at the count — and the store is completely
unchanged. -/
theorem C9_missing_id_still_ok (caller : User) (st : Store) (rid : Nat)
    (ns : String) (ha : caller.is_admin = true)
    (h : ∀ r ∈ st.requests, r.id ≠ rid) :
    putBorrowRequest caller st rid ns = (Response.ok "Request updated", st) := by
  have hany : st.requests.any (fun r => r.id == rid) = false := by
    rw [List.any_eq_false]
    intro r hr
    simp [h r hr]
  have hmap : st.requests.map (setStatus rid ns) = st.requests :=
    calc st.requests.map (setStatus rid ns)
        = st.requests.map id :=
          List.map_congr_left (fun r hr => by simp [setStatus, h r hr])
      _ = st.requests := List.map_id _
  simp [putBorrowRequest, ha, updateRequestStatus, hany, hmap]

/-- C9 witness: updating the unknown id 5 of the example store answers
200 and changes nothing. -/
theorem C9_missing_id_still_ok_witness :
    putBorrowRequest adminUser stExample 5 "Approved" =
      (Response.ok "Request updated", stExample) :=
  C9_missing_id_still_ok adminUser stExample 5 "Approved" rfl (by decide)

end LendingService
